import Mathlib

/-!
# Verification of the credit ledger / redeem-code core of `tg_phone_lookup_bot_credits.py`

This file gives a shallow embedding of the credit-accounting core of the bot:
the `users` and `codes` SQLite tables, the synchronous database operations
(`ensure_user_sync`, `topup_if_needed_sync`, `get_credits_sync`,
`change_credits_sync`, `generate_code_sync`, `redeem_code_sync`) and the
credit-gating logic of the `/num` command handler (`num_cmd`).

The two SQLite tables are modelled as association lists (key/value lists);
`SELECT ... WHERE key = ?` is first-match lookup, `INSERT` is cons (the code
only inserts after a lookup found no row, so keys stay unique), and
`UPDATE ... WHERE key = ?` rewrites every entry with that key.

All async wrappers in the source take the single global `DB_LOCK` around one
call of the corresponding `*_sync` function, and the `*_sync` functions contain
no `await`; hence under the single-threaded asyncio runtime every concurrent
execution of the wrappers is equivalent to executing the `*_sync` bodies
atomically in some sequential order.  Concurrency claims are therefore stated
over all sequential interleavings of atomic operations.

External effects (the clock, the random token generator, the lookup API
response) enter the model as explicit parameters.
-/

set_option autoImplicit false

namespace TgCredits

/-- A row of the `users` table: `credits INTEGER DEFAULT 0`,
`last_topup_date TEXT` (nullable, ISO date `YYYY-MM-DD`).
The `user_id` primary key is the association-list key. -/
structure UserRow where
  credits : Int
  last_topup_date : Option String
deriving DecidableEq, Repr

/-- A row of the `codes` table: `amount INTEGER NOT NULL`, `created_by`,
`created_at`, and the nullable `used_by` / `used_at` columns.
The `code TEXT` primary key is the association-list key. -/
structure CodeRow where
  amount : Int
  created_by : Int
  created_at : String
  used_by : Option Int
  used_at : Option String
deriving DecidableEq, Repr

/-- The persistent store: the two tables of `bot_data.db`. -/
structure DBState where
  users : List (Int × UserRow)
  codes : List (String × CodeRow)
deriving DecidableEq, Repr

/-- Constant `DAILY_FREE_CREDITS = 30` from the CONFIG section. -/
def DAILY_FREE_CREDITS : Int := 30

/-- Constant `CREDIT_COST_PER_LOOKUP = 1` from the CONFIG section. -/
def CREDIT_COST_PER_LOOKUP : Int := 1

/-- First-match lookup in a key/value list: the semantics of
`SELECT ... WHERE key = ?` followed by `fetchone()`. -/
def lookupA {β : Type} {α : Type} [BEq α] : List (α × β) → α → Option β
  | [], _ => none
  | p :: l, k => if p.1 == k then some p.2 else lookupA l k

/-- Rewrite every entry with the given key: the semantics of
`UPDATE ... SET ... WHERE key = ?`. -/
def updateA {β : Type} {α : Type} [BEq α] (l : List (α × β)) (k : α) (v : β) :
    List (α × β) :=
  l.map (fun p => if p.1 == k then (k, v) else p)

/-- Query `SELECT ... FROM users WHERE user_id = ?`. -/
def selectUser (db : DBState) (uid : Int) : Option UserRow :=
  lookupA db.users uid

/-- Query `SELECT ... FROM codes WHERE code = ?`. -/
def selectCode (db : DBState) (code : String) : Option CodeRow :=
  lookupA db.codes code

/-- Statement `INSERT INTO users ...` (performed by the source only after a lookup
found no row with this key). -/
def insertUser (db : DBState) (uid : Int) (row : UserRow) : DBState :=
  ⟨(uid, row) :: db.users, db.codes⟩

/-- Statement `UPDATE users ... WHERE user_id = ?`. -/
def updateUser (db : DBState) (uid : Int) (row : UserRow) : DBState :=
  ⟨updateA db.users uid row, db.codes⟩

/-- Statement `INSERT INTO codes ...`. -/
def insertCode (db : DBState) (code : String) (row : CodeRow) : DBState :=
  ⟨db.users, (code, row) :: db.codes⟩

/-- Statement `UPDATE codes ... WHERE code = ?`. -/
def updateCode (db : DBState) (code : String) (row : CodeRow) : DBState :=
  ⟨db.users, updateA db.codes code row⟩

/-- Function `ensure_user_sync(user_id)`: insert `(user_id, 0, NULL)` if no row exists. -/
def ensure_user_sync (db : DBState) (uid : Int) : DBState :=
  match selectUser db uid with
  | some _ => db
  | none => insertUser db uid ⟨0, none⟩

/-- Function `topup_if_needed_sync(user_id)`: grant `DAILY_FREE_CREDITS` once per
calendar day.  `today` is `date.today().isoformat()`, passed explicitly.
Returns the new state and the returned balance. -/
def topup_if_needed_sync (db : DBState) (today : String) (uid : Int) :
    DBState × Int :=
  match selectUser db uid with
  | none =>
      (insertUser db uid ⟨DAILY_FREE_CREDITS, some today⟩, DAILY_FREE_CREDITS)
  | some r =>
      if r.last_topup_date == some today then
        (db, r.credits)
      else
        let newCredits := r.credits + DAILY_FREE_CREDITS
        (updateUser db uid ⟨newCredits, some today⟩, newCredits)

/-- Function `get_credits_sync(user_id)`: `r[0] if r else 0`. -/
def get_credits_sync (db : DBState) (uid : Int) : Int :=
  match selectUser db uid with
  | some r => r.credits
  | none => 0

/-- Function `change_credits_sync(user_id, delta)`: set credits to
`max(0, old + delta)` (inserting a row with `max(0, delta)` when absent);
returns the new state and the new balance. -/
def change_credits_sync (db : DBState) (uid : Int) (delta : Int) :
    DBState × Int :=
  match selectUser db uid with
  | none => (insertUser db uid ⟨max 0 delta, none⟩, max 0 delta)
  | some r =>
      let n := max 0 (r.credits + delta)
      (updateUser db uid ⟨n, r.last_topup_date⟩, n)

/-- The async `change_credits(user_id, delta)`: under `DB_LOCK`,
`ensure_user_sync` then `change_credits_sync`. -/
def change_credits (db : DBState) (uid : Int) (delta : Int) : DBState × Int :=
  change_credits_sync (ensure_user_sync db uid) uid delta

/-- The async `get_credits(user_id)`: under `DB_LOCK`,
`ensure_user_sync` then `get_credits_sync`. -/
def get_credits (db : DBState) (uid : Int) : DBState × Int :=
  let db1 := ensure_user_sync db uid
  (db1, get_credits_sync db1 uid)

/-- Function `generate_code_sync(amount, created_by)`: insert an unused code row.
`token` models `secrets.token_urlsafe(CODE_BYTES)` and `now` models
`now_iso()`; both are external inputs passed explicitly. -/
def generate_code_sync (db : DBState) (token : String) (now : String)
    (amount : Int) (created_by : Int) : DBState × String :=
  (insertCode db token ⟨amount, created_by, now, none, none⟩, token)

/-- Result of `redeem_code_sync`: `(False, "Code not found")`,
`(False, "Code already used")`, or `(True, amount)`. -/
inductive RedeemResult where
  | notFound
  | alreadyUsed
  | success (amount : Int)
deriving DecidableEq, Repr

/-- Function `redeem_code_sync(code, user_id)`: look the code up; fail if absent or
already used; otherwise mark it used and credit the user (inserting the user
row with `credits = amount` when absent).  `now` models `now_iso()`. -/
def redeem_code_sync (db : DBState) (now : String) (code : String)
    (uid : Int) : DBState × RedeemResult :=
  match selectCode db code with
  | none => (db, .notFound)
  | some c =>
      match c.used_by with
      | some _ => (db, .alreadyUsed)
      | none =>
          let db1 := updateCode db code
            ⟨c.amount, c.created_by, c.created_at, some uid, some now⟩
          match selectUser db1 uid with
          | none => (insertUser db1 uid ⟨c.amount, none⟩, .success c.amount)
          | some r =>
              (updateUser db1 uid ⟨r.credits + c.amount, r.last_topup_date⟩,
               .success c.amount)

/-- Result of the `/code <amount>` issuance path of `code_cmd`. -/
inductive IssueResult where
  | invalidAmount
  | issued (token : String)
deriving DecidableEq, Repr

/-- The issuance operation as exposed by the `/code` handler `code_cmd`:
`amount <= 0` raises `ValueError`, is caught, and the handler returns with an
error reply before `generate_code` is ever called, so no row is created;
otherwise `generate_code_sync` runs under the lock. -/
def code_cmd_issue (db : DBState) (token : String) (now : String)
    (amount : Int) (created_by : Int) : DBState × IssueResult :=
  if amount ≤ 0 then
    (db, .invalidAmount)
  else
    let r := generate_code_sync db token now amount created_by
    (r.1, .issued r.2)

/-- One core operation, as exposed by the async wrappers (each runs atomically
under `DB_LOCK`).  `getBalance` is the async `get_credits`, which also ensures
the account exists.  `issue` is the `/code` handler path: the amount check of
`code_cmd`, then `generate_code_sync`; its token, modelling
`secrets.token_urlsafe`, is globally fresh, which we render by skipping the
insert when the token already exists (SQLite would reject the duplicate
primary key). -/
inductive Op where
  | ensure (uid : Int)
  | grantDaily (today : String) (uid : Int)
  | getBalance (uid : Int)
  | adjust (uid : Int) (delta : Int)
  | issue (token : String) (now : String) (amount : Int) (created_by : Int)
  | redeem (now : String) (code : String) (uid : Int)
deriving DecidableEq, Repr

/-- The state transition of one atomic core operation. -/
def applyOp (db : DBState) : Op → DBState
  | .ensure uid => ensure_user_sync db uid
  | .grantDaily today uid => (topup_if_needed_sync db today uid).1
  | .getBalance uid => (get_credits db uid).1
  | .adjust uid delta => (change_credits db uid delta).1
  | .issue token now amount created_by =>
      match selectCode db token with
      | some _ => db
      | none => (code_cmd_issue db token now amount created_by).1
  | .redeem now code uid => (redeem_code_sync db now code uid).1

/-- Run a sequence of core operations (one sequential interleaving of the
atomic `DB_LOCK`-protected sections). -/
def applyOps (db : DBState) : List Op → DBState
  | [] => db
  | op :: ops => applyOps (applyOp db op) ops

/-- Serialized execution of several `redeem` calls on the same code, one per
attempt `(now, user_id)`: how N concurrent `redeem_code(code, uid)` coroutines
execute under `DB_LOCK` in the single-threaded asyncio runtime, in the order
the lock is granted.  Returns the final state and each attempt's result. -/
def redeemAll (db : DBState) (code : String) :
    List (String × Int) → DBState × List RedeemResult
  | [] => (db, [])
  | a :: rest =>
      let r := redeem_code_sync db a.1 code a.2
      let s := redeemAll r.1 code rest
      (s.1, r.2 :: s.2)

/-- A record of the lookup API response, holding the eight fields that
`num_cmd` inspects (`rec.get(k)`); `none` models an absent or `None` value. -/
structure ApiRec where
  mobile : Option String
  alt_mobile : Option String
  name : Option String
  father_name : Option String
  circle : Option String
  id_number : Option String
  address : Option String
  email : Option String
deriving DecidableEq, Repr

/-- Python truthiness of `rec.get(k)`: present and a non-empty string. -/
def truthy : Option String → Bool
  | none => false
  | some s => !(s.isEmpty)

/-- The per-record filter of `num_cmd`:
`any(rec.get(k) for k in [mobile, alt_mobile, name, father_name, circle,
id_number, address, email])`. -/
def recTruthy (r : ApiRec) : Bool :=
  truthy r.mobile || truthy r.alt_mobile || truthy r.name ||
  truthy r.father_name || truthy r.circle || truthy r.id_number ||
  truthy r.address || truthy r.email

/-- Outcome of the external lookup call as classified by `num_cmd`.  The spec
places the provider's response schema out of scope, so the
normalization/unwrap branch of `num_cmd` (lines 366-400) is abstracted into
the case that it reaches: `ok l` collects the cases where a `data_list` of
records is obtained (top-level list, `data` key holding a list or a dict, or
a single record-like dict); the other constructors are the early-return
branches, each ending the handler without touching credits. -/
inductive ApiOutcome where
  | httpError (status : Nat)
  | ok (records : List ApiRec)
  | noRecordsMsg
  | statusError (msg : String)
  | unknownDict
  | unknownFormat
  | exn (msg : String)
deriving DecidableEq, Repr

/-- The reply `num_cmd` ends with (credit-relevant part). -/
inductive NumReply where
  | badNumber
  | insufficient (credits : Int)
  | apiStatus (status : Nat)
  | noResult
  | apiErrorMsg (msg : String)
  | unexpectedStructure
  | unexpectedFormat
  | results (records : List ApiRec) (remaining : Option Int)
  | excMsg (msg : String)
deriving DecidableEq, Repr

/-- Result of one `num_cmd` invocation: final store state, whether the
external API call was made, whether credits were deducted, and the reply. -/
structure NumOutcome where
  db : DBState
  externalCalled : Bool
  deducted : Bool
  reply : NumReply
deriving DecidableEq, Repr

/-- The `/num` handler `num_cmd`, from the digit-count check on:
`digitsLen` is `len(num_digits)`; `adminIds` is `ADMIN_IDS`; `today` feeds the
`topup_if_needed` call; `api` is the outcome of the external request.  It
ensures the account and applies the daily grant, checks (without deducting)
that a non-admin caller can afford `CREDIT_COST_PER_LOOKUP`, performs the
lookup, and deducts only after a non-empty filtered result list. -/
def num_cmd (db : DBState) (today : String) (adminIds : List Int) (uid : Int)
    (digitsLen : Nat) (api : ApiOutcome) : NumOutcome :=
  if digitsLen ≠ 10 ∧ digitsLen ≠ 12 then
    ⟨db, false, false, .badNumber⟩
  else
    let isAdmin := adminIds.contains uid
    let db1 := ensure_user_sync db uid
    let db2 := (topup_if_needed_sync db1 today uid).1
    let credits := (get_credits db2 uid).2
    if !isAdmin && decide (credits < CREDIT_COST_PER_LOOKUP) then
      ⟨db2, false, false, .insufficient credits⟩
    else
      match api with
      | .httpError s => ⟨db2, true, false, .apiStatus s⟩
      | .noRecordsMsg => ⟨db2, true, false, .noResult⟩
      | .statusError m => ⟨db2, true, false, .apiErrorMsg m⟩
      | .unknownDict => ⟨db2, true, false, .unexpectedStructure⟩
      | .unknownFormat => ⟨db2, true, false, .unexpectedFormat⟩
      | .exn m => ⟨db2, true, false, .excMsg m⟩
      | .ok records =>
          let filtered := records.filter recTruthy
          if filtered.isEmpty then
            ⟨db2, true, false, .noResult⟩
          else if isAdmin then
            ⟨db2, true, false, .results filtered none⟩
          else
            let db3 := (change_credits db2 uid (-CREDIT_COST_PER_LOOKUP)).1
            let rem := (get_credits db3 uid).2
            ⟨db3, true, true, .results filtered (some rem)⟩

/-- The `last_topup_date` column of a user's row (`none` when the account is
absent or the column is NULL). -/
def lastTopup (db : DBState) (uid : Int) : Option String :=
  (selectUser db uid).bind fun r => r.last_topup_date

/-- Predicate `RedeemResult.isSuccess`: did the redemption succeed? -/
def RedeemResult.isSuccess : RedeemResult → Bool
  | .success _ => true
  | _ => false

/-- The data-model invariants of section 3 of the design: every user row has
`credits >= 0` and every code row has a positive `amount`. -/
def goodState (db : DBState) : Prop :=
  (∀ p ∈ db.users, 0 ≤ p.2.credits) ∧ (∀ p ∈ db.codes, 0 < p.2.amount)

instance (db : DBState) : Decidable (goodState db) := by
  unfold goodState
  infer_instance

section AssocLemmas

variable {α β : Type} [BEq α]

@[simp] theorem lookupA_nil (k : α) : lookupA ([] : List (α × β)) k = none := rfl

@[simp] theorem lookupA_cons (p : α × β) (l : List (α × β)) (k : α) :
    lookupA (p :: l) k = if p.1 == k then some p.2 else lookupA l k := rfl

@[simp] theorem lookupA_update_self [LawfulBEq α] (l : List (α × β)) (k : α)
    (v : β) : lookupA (updateA l k v) k = (lookupA l k).map (fun _ => v) := by
  induction l with
  | nil => rfl
  | cons p l ih =>
      by_cases h : p.1 = k
      · simp [updateA, h]
      · simp only [updateA, List.map_cons] at ih ⊢
        simp [h, ih, updateA]

@[simp] theorem lookupA_update_ne [LawfulBEq α] (l : List (α × β)) (k k' : α)
    (v : β) (h : k' ≠ k) : lookupA (updateA l k v) k' = lookupA l k' := by
  induction l with
  | nil => rfl
  | cons p l ih =>
      by_cases hp : p.1 = k
      · simp only [updateA, List.map_cons] at ih ⊢
        simp [hp, Ne.symm h, ih, updateA]
      · by_cases hp' : p.1 = k'
        · simp only [updateA, List.map_cons] at ih ⊢
          simp [hp', h]
        · simp only [updateA, List.map_cons] at ih ⊢
          simp [hp, hp', ih]

theorem lookupA_prop (P : β → Prop) {l : List (α × β)} {k : α} {v : β}
    (hl : ∀ p ∈ l, P p.2) (h : lookupA l k = some v) : P v := by
  induction l with
  | nil => simp [lookupA] at h
  | cons p l ih =>
      simp only [lookupA_cons] at h
      by_cases hp : p.1 == k
      · simp [hp] at h
        exact h ▸ hl p (List.mem_cons_self p l)
      · simp [hp] at h
        exact ih (fun q hq => hl q (List.mem_cons_of_mem p hq)) h

theorem updateA_prop (P : β → Prop) {l : List (α × β)} {k : α} {v : β}
    (hl : ∀ p ∈ l, P p.2) (hv : P v) : ∀ p ∈ updateA l k v, P p.2 := by
  intro p hp
  simp only [updateA, List.mem_map] at hp
  obtain ⟨q, hq, hpq⟩ := hp
  by_cases h : q.1 == k
  · simp [h] at hpq
    exact hpq ▸ hv
  · simp [h] at hpq
    exact hpq ▸ hl q hq

end AssocLemmas

@[simp] theorem selectUser_insertUser_self (db : DBState) (uid : Int)
    (row : UserRow) : selectUser (insertUser db uid row) uid = some row := by
  simp [selectUser, insertUser]

@[simp] theorem selectUser_insertUser_ne (db : DBState) (uid uid' : Int)
    (row : UserRow) (h : uid' ≠ uid) :
    selectUser (insertUser db uid row) uid' = selectUser db uid' := by
  simp [selectUser, insertUser, Ne.symm h]

@[simp] theorem selectUser_updateUser_self (db : DBState) (uid : Int)
    (row : UserRow) :
    selectUser (updateUser db uid row) uid =
      (selectUser db uid).map (fun _ => row) := by
  simp [selectUser, updateUser]

@[simp] theorem selectUser_updateUser_ne (db : DBState) (uid uid' : Int)
    (row : UserRow) (h : uid' ≠ uid) :
    selectUser (updateUser db uid row) uid' = selectUser db uid' := by
  simp [selectUser, updateUser, h]

@[simp] theorem selectCode_insertCode_self (db : DBState) (code : String)
    (row : CodeRow) : selectCode (insertCode db code row) code = some row := by
  simp [selectCode, insertCode]

@[simp] theorem selectCode_insertCode_ne (db : DBState) (code code' : String)
    (row : CodeRow) (h : code' ≠ code) :
    selectCode (insertCode db code row) code' = selectCode db code' := by
  simp [selectCode, insertCode, Ne.symm h]

@[simp] theorem selectCode_updateCode_self (db : DBState) (code : String)
    (row : CodeRow) :
    selectCode (updateCode db code row) code =
      (selectCode db code).map (fun _ => row) := by
  simp [selectCode, updateCode]

@[simp] theorem selectCode_updateCode_ne (db : DBState) (code code' : String)
    (row : CodeRow) (h : code' ≠ code) :
    selectCode (updateCode db code row) code' = selectCode db code' := by
  simp [selectCode, updateCode, h]

@[simp] theorem selectCode_insertUser (db : DBState) (uid : Int)
    (row : UserRow) (code : String) :
    selectCode (insertUser db uid row) code = selectCode db code := rfl

@[simp] theorem selectCode_updateUser (db : DBState) (uid : Int)
    (row : UserRow) (code : String) :
    selectCode (updateUser db uid row) code = selectCode db code := rfl

@[simp] theorem selectUser_insertCode (db : DBState) (code : String)
    (row : CodeRow) (uid : Int) :
    selectUser (insertCode db code row) uid = selectUser db uid := rfl

@[simp] theorem selectUser_updateCode (db : DBState) (code : String)
    (row : CodeRow) (uid : Int) :
    selectUser (updateCode db code row) uid = selectUser db uid := rfl

@[simp] theorem codes_insertUser (db : DBState) (uid : Int) (row : UserRow) :
    (insertUser db uid row).codes = db.codes := rfl

@[simp] theorem codes_updateUser (db : DBState) (uid : Int) (row : UserRow) :
    (updateUser db uid row).codes = db.codes := rfl

@[simp] theorem users_insertCode (db : DBState) (code : String)
    (row : CodeRow) : (insertCode db code row).users = db.users := rfl

@[simp] theorem users_updateCode (db : DBState) (code : String)
    (row : CodeRow) : (updateCode db code row).users = db.users := rfl

theorem ensure_user_sync_of_some (db : DBState) (uid : Int) (r : UserRow)
    (h : selectUser db uid = some r) : ensure_user_sync db uid = db := by
  simp [ensure_user_sync, h]

theorem ensure_user_sync_of_none (db : DBState) (uid : Int)
    (h : selectUser db uid = none) :
    ensure_user_sync db uid = insertUser db uid ⟨0, none⟩ := by
  simp [ensure_user_sync, h]

@[simp] theorem selectUser_ensure_self (db : DBState) (uid : Int) :
    selectUser (ensure_user_sync db uid) uid
      = some ((selectUser db uid).getD ⟨0, none⟩) := by
  unfold ensure_user_sync
  cases h : selectUser db uid with
  | some r => simp [h]
  | none => simp

@[simp] theorem get_credits_sync_ensure (db : DBState) (uid uid' : Int) :
    get_credits_sync (ensure_user_sync db uid) uid'
      = get_credits_sync db uid' := by
  unfold ensure_user_sync
  cases h : selectUser db uid with
  | some r => rfl
  | none =>
      by_cases he : uid' = uid
      · subst he
        simp [get_credits_sync, h]
      · simp [get_credits_sync, he]

@[simp] theorem selectCode_ensure (db : DBState) (uid : Int) (code : String) :
    selectCode (ensure_user_sync db uid) code = selectCode db code := by
  unfold ensure_user_sync
  cases h : selectUser db uid <;> rfl

@[simp] theorem selectUser_topup_self (db : DBState) (today : String)
    (uid : Int) :
    selectUser (topup_if_needed_sync db today uid).1 uid
      = some ⟨(topup_if_needed_sync db today uid).2, some today⟩ := by
  unfold topup_if_needed_sync
  cases h : selectUser db uid with
  | none => simp
  | some r =>
      cases r with
      | mk c l =>
          by_cases ht : l = some today
          · subst ht
            simp [h]
          · simp only at ht
            simp [ht, h]

@[simp] theorem selectCode_topup (db : DBState) (today : String) (uid : Int)
    (code : String) :
    selectCode (topup_if_needed_sync db today uid).1 code
      = selectCode db code := by
  unfold topup_if_needed_sync
  cases h : selectUser db uid with
  | none => rfl
  | some r =>
      by_cases ht : r.last_topup_date = some today
      · simp [ht]
      · simp [ht]

theorem change_credits_val (db : DBState) (uid : Int) (delta : Int) :
    (change_credits db uid delta).2
      = max 0 (get_credits_sync db uid + delta) := by
  unfold change_credits change_credits_sync
  cases h : selectUser db uid with
  | none =>
      rw [ensure_user_sync_of_none db uid h]
      simp [get_credits_sync, h]
  | some r =>
      rw [ensure_user_sync_of_some db uid r h]
      simp [get_credits_sync, h]

theorem selectUser_change_self (db : DBState) (uid : Int) (delta : Int) :
    selectUser (change_credits db uid delta).1 uid
      = some ⟨max 0 (get_credits_sync db uid + delta), lastTopup db uid⟩ := by
  unfold change_credits change_credits_sync
  cases h : selectUser db uid with
  | none =>
      rw [ensure_user_sync_of_none db uid h]
      simp [get_credits_sync, lastTopup, h]
  | some r =>
      rw [ensure_user_sync_of_some db uid r h]
      simp [get_credits_sync, lastTopup, h]

theorem get_credits_sync_change_self (db : DBState) (uid : Int)
    (delta : Int) :
    get_credits_sync (change_credits db uid delta).1 uid
      = max 0 (get_credits_sync db uid + delta) := by
  rw [get_credits_sync, selectUser_change_self]

@[simp] theorem selectCode_change (db : DBState) (uid : Int) (delta : Int)
    (code : String) :
    selectCode (change_credits db uid delta).1 code = selectCode db code := by
  unfold change_credits change_credits_sync
  cases h : selectUser (ensure_user_sync db uid) uid with
  | none => simp
  | some r => simp

theorem redeem_notFound (db : DBState) (now code : String) (uid : Int)
    (h : selectCode db code = none) :
    redeem_code_sync db now code uid = (db, .notFound) := by
  simp [redeem_code_sync, h]

theorem redeem_alreadyUsed (db : DBState) (now code : String) (uid : Int)
    (c : CodeRow) (u : Int) (hc : selectCode db code = some c)
    (hu : c.used_by = some u) :
    redeem_code_sync db now code uid = (db, .alreadyUsed) := by
  simp [redeem_code_sync, hc, hu]

theorem redeem_success (db : DBState) (now code : String) (uid : Int)
    (c : CodeRow) (hc : selectCode db code = some c) (hu : c.used_by = none) :
    (redeem_code_sync db now code uid).2 = .success c.amount ∧
    get_credits_sync (redeem_code_sync db now code uid).1 uid
      = get_credits_sync db uid + c.amount ∧
    selectCode (redeem_code_sync db now code uid).1 code
      = some ⟨c.amount, c.created_by, c.created_at, some uid, some now⟩ := by
  simp only [redeem_code_sync, hc, hu, selectUser_updateCode]
  cases h2 : selectUser db uid with
  | none =>
      refine ⟨rfl, ?_, ?_⟩
      · simp [get_credits_sync, h2]
      · simp [hc]
  | some r =>
      refine ⟨rfl, ?_, ?_⟩
      · simp [get_credits_sync, h2]
      · simp [hc]

theorem selectUser_redeem_new (db : DBState) (now code : String) (uid : Int)
    (c : CodeRow) (hc : selectCode db code = some c) (hu : c.used_by = none)
    (hnew : selectUser db uid = none) :
    selectUser (redeem_code_sync db now code uid).1 uid
      = some ⟨c.amount, none⟩ := by
  simp only [redeem_code_sync, hc, hu, selectUser_updateCode, hnew]
  simp

theorem selectCode_redeem_ne (db : DBState) (now code code' : String)
    (uid : Int) (h : code' ≠ code) :
    selectCode (redeem_code_sync db now code uid).1 code'
      = selectCode db code' := by
  cases hc : selectCode db code with
  | none => simp [redeem_code_sync, hc]
  | some c =>
      cases hu : c.used_by with
      | some u => simp [redeem_code_sync, hc, hu]
      | none =>
          simp only [redeem_code_sync, hc, hu, selectUser_updateCode]
          cases h2 : selectUser db uid with
          | none => simp [h]
          | some r => simp [h]

theorem redeemAll_used (code : String) (c : CodeRow) (u : Int)
    (hu : c.used_by = some u) (attempts : List (String × Int)) :
    ∀ db : DBState, selectCode db code = some c →
      redeemAll db code attempts
        = (db, List.replicate attempts.length .alreadyUsed) := by
  induction attempts with
  | nil => intro db hc; rfl
  | cons a rest ih =>
      intro db hc
      have h1 := redeem_alreadyUsed db a.1 code a.2 c u hc hu
      simp [redeemAll, h1, ih db hc, List.replicate_succ]

theorem selectCode_applyOp_used (db : DBState) (op : Op) (code : String)
    (c : CodeRow) (u : Int) (hc : selectCode db code = some c)
    (hu : c.used_by = some u) :
    selectCode (applyOp db op) code = some c := by
  cases op with
  | ensure uid => simp [applyOp, hc]
  | grantDaily today uid => simp [applyOp, hc]
  | getBalance uid => simp [applyOp, get_credits, hc]
  | adjust uid delta => simp [applyOp, hc]
  | issue token now amount created_by =>
      by_cases h : token = code
      · subst h
        simp [applyOp, hc]
      · cases h2 : selectCode db token with
        | some c2 => simp [applyOp, h2, hc]
        | none =>
            simp only [applyOp, h2]
            by_cases ha : amount ≤ 0
            · simp [code_cmd_issue, ha, hc]
            · simp [code_cmd_issue, ha, generate_code_sync,
                    Ne.symm h, hc]
  | redeem now code2 uid =>
      by_cases h : code2 = code
      · subst h
        show selectCode (redeem_code_sync db now code2 uid).1 code2 = some c
        rw [redeem_alreadyUsed db now code2 uid c u hc hu]
        exact hc
      · show selectCode (redeem_code_sync db now code2 uid).1 code = some c
        rw [selectCode_redeem_ne db now code2 code uid (Ne.symm h)]
        exact hc

theorem selectCode_applyOps_used (db : DBState) (ops : List Op)
    (code : String) (c : CodeRow) (u : Int)
    (hc : selectCode db code = some c) (hu : c.used_by = some u) :
    selectCode (applyOps db ops) code = some c := by
  induction ops generalizing db with
  | nil => exact hc
  | cons op ops ih =>
      exact ih (applyOp db op) (selectCode_applyOp_used db op code c u hc hu)

theorem goodState_nonneg_balance (db : DBState) (h : goodState db)
    (uid : Int) : 0 ≤ get_credits_sync db uid := by
  unfold get_credits_sync
  cases hs : selectUser db uid with
  | none => simp
  | some r => exact lookupA_prop (fun r : UserRow => 0 ≤ r.credits) h.1 hs

theorem goodState_code_amount (db : DBState) (h : goodState db)
    (code : String) (c : CodeRow) (hc : selectCode db code = some c) :
    0 < c.amount :=
  lookupA_prop (fun c : CodeRow => 0 < c.amount) h.2 hc

theorem goodState_insertUser (db : DBState) (uid : Int) (row : UserRow)
    (h : goodState db) (hrow : 0 ≤ row.credits) :
    goodState (insertUser db uid row) := by
  refine ⟨?_, h.2⟩
  intro p hp
  rcases List.mem_cons.mp hp with h1 | h1
  · rw [h1]
    exact hrow
  · exact h.1 p h1

theorem goodState_updateUser (db : DBState) (uid : Int) (row : UserRow)
    (h : goodState db) (hrow : 0 ≤ row.credits) :
    goodState (updateUser db uid row) :=
  ⟨updateA_prop (fun r : UserRow => 0 ≤ r.credits) h.1 hrow, h.2⟩

theorem goodState_insertCode (db : DBState) (code : String) (row : CodeRow)
    (h : goodState db) (hrow : 0 < row.amount) :
    goodState (insertCode db code row) := by
  refine ⟨h.1, ?_⟩
  intro p hp
  rcases List.mem_cons.mp hp with h1 | h1
  · rw [h1]
    exact hrow
  · exact h.2 p h1

theorem goodState_updateCode (db : DBState) (code : String) (row : CodeRow)
    (h : goodState db) (hrow : 0 < row.amount) :
    goodState (updateCode db code row) :=
  ⟨h.1, updateA_prop (fun c : CodeRow => 0 < c.amount) h.2 hrow⟩

theorem goodState_ensure (db : DBState) (uid : Int) (h : goodState db) :
    goodState (ensure_user_sync db uid) := by
  unfold ensure_user_sync
  cases hs : selectUser db uid with
  | some r => exact h
  | none => exact goodState_insertUser db uid ⟨0, none⟩ h le_rfl

theorem goodState_topup (db : DBState) (today : String) (uid : Int)
    (h : goodState db) : goodState (topup_if_needed_sync db today uid).1 := by
  unfold topup_if_needed_sync
  cases hs : selectUser db uid with
  | none =>
      exact goodState_insertUser db uid ⟨DAILY_FREE_CREDITS, some today⟩ h
        (by simp [DAILY_FREE_CREDITS])
  | some r =>
      have h0 : 0 ≤ r.credits := lookupA_prop (fun r : UserRow => 0 ≤ r.credits) h.1 hs
      by_cases ht : r.last_topup_date = some today
      · simp [ht]
        exact h
      · simp only [ht]
        simp only [beq_iff_eq, ht, if_false]
        refine goodState_updateUser db uid _ h ?_
        simp only [DAILY_FREE_CREDITS]
        omega

theorem goodState_change (db : DBState) (uid : Int) (delta : Int)
    (h : goodState db) : goodState (change_credits db uid delta).1 := by
  unfold change_credits change_credits_sync
  have h1 : goodState (ensure_user_sync db uid) := goodState_ensure db uid h
  cases hs : selectUser (ensure_user_sync db uid) uid with
  | none =>
      exact goodState_insertUser _ uid ⟨max 0 delta, none⟩ h1 (le_max_left 0 delta)
  | some r =>
      exact goodState_updateUser _ uid _ h1 (le_max_left 0 _)

theorem goodState_redeem (db : DBState) (now code : String) (uid : Int)
    (h : goodState db) : goodState (redeem_code_sync db now code uid).1 := by
  cases hc : selectCode db code with
  | none =>
      rw [redeem_notFound db now code uid hc]
      exact h
  | some c =>
      cases hu : c.used_by with
      | some u =>
          rw [redeem_alreadyUsed db now code uid c u hc hu]
          exact h
      | none =>
          have hamt : 0 < c.amount := goodState_code_amount db h code c hc
          simp only [redeem_code_sync, hc, hu, selectUser_updateCode]
          have h1 : goodState (updateCode db code
              ⟨c.amount, c.created_by, c.created_at, some uid, some now⟩) :=
            goodState_updateCode db code _ h hamt
          cases h2 : selectUser db uid with
          | none =>
              exact goodState_insertUser _ uid ⟨c.amount, none⟩ h1 (le_of_lt hamt)
          | some r =>
              have h0 : 0 ≤ r.credits := lookupA_prop (fun r : UserRow => 0 ≤ r.credits) h.1 h2
              refine goodState_updateUser _ uid _ h1 ?_
              show (0 : Int) ≤ r.credits + c.amount
              omega

theorem goodState_applyOp (db : DBState) (op : Op) (h : goodState db) :
    goodState (applyOp db op) := by
  cases op with
  | ensure uid => exact goodState_ensure db uid h
  | grantDaily today uid => exact goodState_topup db today uid h
  | getBalance uid => exact goodState_ensure db uid h
  | adjust uid delta => exact goodState_change db uid delta h
  | issue token now amount created_by =>
      simp only [applyOp]
      cases h2 : selectCode db token with
      | some c => exact h
      | none =>
          unfold code_cmd_issue
          by_cases ha : amount ≤ 0
          · simp [ha]
            exact h
          · simp only [ha, if_false]
            refine goodState_insertCode db token _ h ?_
            show (0 : Int) < amount
            omega
  | redeem now code uid => exact goodState_redeem db now code uid h

theorem goodState_applyOps (db : DBState) (ops : List Op) (h : goodState db) :
    goodState (applyOps db ops) := by
  induction ops generalizing db with
  | nil => exact h
  | cons op ops ih => exact ih (applyOp db op) (goodState_applyOp db op h)

theorem countP_replicate_false {α : Type} (p : α → Bool) (a : α) (n : Nat)
    (h : p a = false) : List.countP p (List.replicate n a) = 0 := by
  induction n with
  | zero => rfl
  | succ n ih => simp [List.replicate_succ, List.countP_cons, h, ih]

theorem get_credits_after_topup (db : DBState) (today : String) (uid : Int) :
    (get_credits (topup_if_needed_sync db today uid).1 uid).2
      = get_credits_sync (topup_if_needed_sync db today uid).1 uid := by
  unfold get_credits
  rw [ensure_user_sync_of_some _ uid _ (selectUser_topup_self db today uid)]

/-- C1: for every code present in the registry with `used_by` NULL (the state
an issued code is in) and amount `A`, the first `redeem` succeeds returning
`A` and increases the redeemer's balance by exactly `A`; after that, any
later `redeem` of the same code by any caller — even after an arbitrary
further sequence of core operations — fails with `CodeAlreadyUsed`
(`"Code already used"`) and leaves the whole store, hence every balance,
unchanged. -/
theorem C1_redeem_exactly_once (db : DBState) (code : String) (c : CodeRow)
    (uid : Int) (now : String)
    (hc : selectCode db code = some c) (hu : c.used_by = none) :
    (redeem_code_sync db now code uid).2 = .success c.amount ∧
    get_credits_sync (redeem_code_sync db now code uid).1 uid
      = get_credits_sync db uid + c.amount ∧
    ∀ (ops : List Op) (now' : String) (uid' : Int),
      redeem_code_sync (applyOps (redeem_code_sync db now code uid).1 ops)
          now' code uid'
        = (applyOps (redeem_code_sync db now code uid).1 ops,
           .alreadyUsed) := by
  obtain ⟨h1, h2, h3⟩ := redeem_success db now code uid c hc hu
  refine ⟨h1, h2, ?_⟩
  intro ops now' uid'
  have h4 := selectCode_applyOps_used (redeem_code_sync db now code uid).1
    ops code ⟨c.amount, c.created_by, c.created_at, some uid, some now⟩ uid
    h3 rfl
  exact redeem_alreadyUsed _ now' code uid' _ uid h4 rfl

/-- Witness for C1 at a concrete store: one unused code `"T"` of amount 100,
redeemed by user 42. -/
theorem C1_redeem_exactly_once_witness :
    (redeem_code_sync ⟨[], [("T", ⟨100, 7, "t0", none, none⟩)]⟩
        "t1" "T" 42).2 = .success 100 ∧
    get_credits_sync (redeem_code_sync ⟨[], [("T", ⟨100, 7, "t0", none, none⟩)]⟩
        "t1" "T" 42).1 42
      = get_credits_sync ⟨[], [("T", ⟨100, 7, "t0", none, none⟩)]⟩ 42 + 100 ∧
    ∀ (ops : List Op) (now' : String) (uid' : Int),
      redeem_code_sync
          (applyOps (redeem_code_sync ⟨[], [("T", ⟨100, 7, "t0", none, none⟩)]⟩
            "t1" "T" 42).1 ops) now' "T" uid'
        = (applyOps (redeem_code_sync ⟨[], [("T", ⟨100, 7, "t0", none, none⟩)]⟩
            "t1" "T" 42).1 ops, .alreadyUsed) :=
  C1_redeem_exactly_once ⟨[], [("T", ⟨100, 7, "t0", none, none⟩)]⟩ "T"
    ⟨100, 7, "t0", none, none⟩ 42 "t1" (by decide) (by decide)

/-- C2: the lock `DB_LOCK` serializes concurrent `redeem_code` coroutines, so N
concurrent redemptions of one unused code execute as the N atomic
`redeem_code_sync` bodies in lock-grant order: the first wins with
`success amount`, the other N−1 all observe `CodeAlreadyUsed`, exactly one
result is a success, and across all N attempts the winner's balance grows by
the amount exactly once (the failing attempts do not change the store). -/
theorem C2_concurrent_redeem (db : DBState) (code : String) (c : CodeRow)
    (first : String × Int) (rest : List (String × Int))
    (hc : selectCode db code = some c) (hu : c.used_by = none) :
    redeemAll db code (first :: rest)
      = ((redeem_code_sync db first.1 code first.2).1,
         .success c.amount :: List.replicate rest.length .alreadyUsed) ∧
    (redeemAll db code (first :: rest)).2.countP
        (fun r => r.isSuccess) = 1 ∧
    get_credits_sync (redeemAll db code (first :: rest)).1 first.2
      = get_credits_sync db first.2 + c.amount := by
  obtain ⟨h1, h2, h3⟩ := redeem_success db first.1 code first.2 c hc hu
  have hall := redeemAll_used code
    ⟨c.amount, c.created_by, c.created_at, some first.2, some first.1⟩
    first.2 rfl rest (redeem_code_sync db first.1 code first.2).1 h3
  have hmain : redeemAll db code (first :: rest)
      = ((redeem_code_sync db first.1 code first.2).1,
         .success c.amount :: List.replicate rest.length .alreadyUsed) := by
    simp only [redeemAll, hall, h1]
  refine ⟨hmain, ?_, ?_⟩
  · rw [hmain, List.countP_cons,
      countP_replicate_false (fun r : RedeemResult => r.isSuccess)
        .alreadyUsed rest.length rfl]
    simp [RedeemResult.isSuccess]
  · rw [hmain]
    exact h2

/-- Witness for C2: three serialized attempts on code `"T"` (amount 100) by
users 1, 2 and 1 again; user 1's attempt in first lock-order position wins. -/
theorem C2_concurrent_redeem_witness :
    redeemAll ⟨[], [("T", ⟨100, 7, "t0", none, none⟩)]⟩ "T"
        [("t1", 1), ("t2", 2), ("t3", 1)]
      = ((redeem_code_sync ⟨[], [("T", ⟨100, 7, "t0", none, none⟩)]⟩
            "t1" "T" 1).1,
         .success 100 :: List.replicate 2 .alreadyUsed) ∧
    (redeemAll ⟨[], [("T", ⟨100, 7, "t0", none, none⟩)]⟩ "T"
        [("t1", 1), ("t2", 2), ("t3", 1)]).2.countP
        (fun r => r.isSuccess) = 1 ∧
    get_credits_sync (redeemAll ⟨[], [("T", ⟨100, 7, "t0", none, none⟩)]⟩ "T"
        [("t1", 1), ("t2", 2), ("t3", 1)]).1 1
      = get_credits_sync ⟨[], [("T", ⟨100, 7, "t0", none, none⟩)]⟩ 1 + 100 :=
  C2_concurrent_redeem ⟨[], [("T", ⟨100, 7, "t0", none, none⟩)]⟩ "T"
    ⟨100, 7, "t0", none, none⟩ ("t1", 1) [("t2", 2), ("t3", 1)]
    (by decide) (by decide)

/-- C3: `topup_if_needed_sync` adds exactly `DAILY_FREE_CREDITS` when the
stored `last_topup_date` differs from today (including the NULL column and
the absent-account case, where the old balance counts as 0), sets
`last_topup_date` to today and returns the new balance; when it already
equals today it returns the current balance and leaves the store unchanged.
Consequently a second call on the same calendar date returns the same
balance and the same state as the first (idempotent per day). -/
theorem C3_grantDaily_spec (db : DBState) (today : String) (uid : Int) :
    (lastTopup db uid ≠ some today →
       (topup_if_needed_sync db today uid).2
         = get_credits_sync db uid + DAILY_FREE_CREDITS ∧
       get_credits_sync (topup_if_needed_sync db today uid).1 uid
         = get_credits_sync db uid + DAILY_FREE_CREDITS ∧
       lastTopup (topup_if_needed_sync db today uid).1 uid = some today) ∧
    (lastTopup db uid = some today →
       topup_if_needed_sync db today uid = (db, get_credits_sync db uid)) ∧
    topup_if_needed_sync (topup_if_needed_sync db today uid).1 today uid
      = ((topup_if_needed_sync db today uid).1,
         (topup_if_needed_sync db today uid).2) := by
  refine ⟨?_, ?_, ?_⟩
  · intro hne
    cases hs : selectUser db uid with
    | none =>
        simp [topup_if_needed_sync, hs, get_credits_sync, lastTopup]
    | some r =>
        have ht : r.last_topup_date ≠ some today := by
          intro heq
          exact hne (by simp [lastTopup, hs, heq])
        refine ⟨?_, ?_, ?_⟩
        · simp [topup_if_needed_sync, hs, ht, get_credits_sync]
        · simp [topup_if_needed_sync, hs, ht, get_credits_sync]
        · simp [topup_if_needed_sync, hs, ht, lastTopup]
  · intro heq
    cases hs : selectUser db uid with
    | none => simp [lastTopup, hs] at heq
    | some r =>
        have ht : r.last_topup_date = some today := by
          simpa [lastTopup, hs] using heq
        simp [topup_if_needed_sync, hs, ht, get_credits_sync]
  · have hrow := selectUser_topup_self db today uid
    conv_lhs => rw [topup_if_needed_sync]
    rw [hrow]
    simp

/-- Witness for C3 on a fresh store (absent account: NULL branch) for user 1
on 2026-10-12, plus the idempotence of the repeated call. -/
theorem C3_grantDaily_spec_witness :
    ((topup_if_needed_sync ⟨[], []⟩ "2026-10-12" 1).2
       = get_credits_sync ⟨[], []⟩ 1 + DAILY_FREE_CREDITS ∧
     get_credits_sync (topup_if_needed_sync ⟨[], []⟩ "2026-10-12" 1).1 1
       = get_credits_sync ⟨[], []⟩ 1 + DAILY_FREE_CREDITS ∧
     lastTopup (topup_if_needed_sync ⟨[], []⟩ "2026-10-12" 1).1 1
       = some "2026-10-12") ∧
    topup_if_needed_sync (topup_if_needed_sync ⟨[], []⟩ "2026-10-12" 1).1
        "2026-10-12" 1
      = ((topup_if_needed_sync ⟨[], []⟩ "2026-10-12" 1).1,
         (topup_if_needed_sync ⟨[], []⟩ "2026-10-12" 1).2) :=
  ⟨(C3_grantDaily_spec ⟨[], []⟩ "2026-10-12" 1).1 (by decide),
   (C3_grantDaily_spec ⟨[], []⟩ "2026-10-12" 1).2.2⟩

/-- C4: the async `change_credits` (the Ledger's `adjust`) sets the balance
to `max(0, old_balance + delta)` — treating an absent account as balance 0 —
and returns that value; in particular the result is never negative, and no
error outcome exists (the function is total). -/
theorem C4_adjust_clamped (db : DBState) (uid : Int) (delta : Int) :
    (change_credits db uid delta).2
      = max 0 (get_credits_sync db uid + delta) ∧
    get_credits_sync (change_credits db uid delta).1 uid
      = max 0 (get_credits_sync db uid + delta) ∧
    0 ≤ (change_credits db uid delta).2 := by
  refine ⟨change_credits_val db uid delta,
    get_credits_sync_change_self db uid delta, ?_⟩
  rw [change_credits_val]
  exact le_max_left 0 _

/-- C5: starting from any store satisfying the data-model invariant (all
user rows non-negative, all code amounts positive — e.g. the empty store),
every sequence of core operations (ensure-account, daily grant, balance
read, adjust, issue, redeem) preserves the invariant, so every account's
credits value stays `>= 0` after every such sequence. -/
theorem C5_credits_nonneg (db : DBState) (ops : List Op)
    (h : goodState db) :
    goodState (applyOps db ops) ∧
    ∀ uid : Int, 0 ≤ get_credits_sync (applyOps db ops) uid :=
  ⟨goodState_applyOps db ops h,
   fun uid => goodState_nonneg_balance _ (goodState_applyOps db ops h) uid⟩

/-- Witness for C5: the empty store, then a daily grant, an over-draining
adjust, an issuance and a redemption. -/
theorem C5_credits_nonneg_witness :
    goodState ⟨[], []⟩ ∧
    (goodState (applyOps ⟨[], []⟩
        [.grantDaily "2026-10-12" 1, .adjust 1 (-100), .issue "T" "t0" 5 2,
         .redeem "t1" "T" 1, .getBalance 1, .ensure 3]) ∧
     ∀ uid : Int, 0 ≤ get_credits_sync (applyOps ⟨[], []⟩
        [.grantDaily "2026-10-12" 1, .adjust 1 (-100), .issue "T" "t0" 5 2,
         .redeem "t1" "T" 1, .getBalance 1, .ensure 3]) uid) :=
  ⟨by decide, C5_credits_nonneg ⟨[], []⟩
    [.grantDaily "2026-10-12" 1, .adjust 1 (-100), .issue "T" "t0" 5 2,
     .redeem "t1" "T" 1, .getBalance 1, .ensure 3] (by decide)⟩

/-- C6: for every amount that is not a positive integer, the `/code`
issuance path (`code_cmd`, which guards `generate_code_sync`) fails with the
invalid-amount reply and leaves the store unchanged — no `codes` row is
created. -/
theorem C6_issue_invalid_amount (db : DBState) (token now : String)
    (amount created_by : Int) (h : amount ≤ 0) :
    code_cmd_issue db token now amount created_by = (db, .invalidAmount) := by
  simp [code_cmd_issue, h]

/-- Witness for C6 at the spec's two sample amounts, 0 and −5. -/
theorem C6_issue_invalid_amount_witness :
    code_cmd_issue ⟨[], []⟩ "T" "t0" (-5) 9 = (⟨[], []⟩, .invalidAmount) ∧
    code_cmd_issue ⟨[], []⟩ "T" "t0" 0 9 = (⟨[], []⟩, .invalidAmount) :=
  ⟨C6_issue_invalid_amount ⟨[], []⟩ "T" "t0" (-5) 9 (by decide),
   C6_issue_invalid_amount ⟨[], []⟩ "T" "t0" 0 9 (by decide)⟩

/-- C9: redeeming a code string absent from the registry returns
`CodeNotFound` (`"Code not found"`) and leaves the store unchanged: every
account balance and every code row is exactly as before. -/
theorem C9_redeem_notFound_frame (db : DBState) (now code : String)
    (uid : Int) (h : selectCode db code = none) :
    redeem_code_sync db now code uid = (db, .notFound) ∧
    (∀ uid' : Int, get_credits_sync (redeem_code_sync db now code uid).1 uid'
       = get_credits_sync db uid') ∧
    ∀ code' : String, selectCode (redeem_code_sync db now code uid).1 code'
       = selectCode db code' := by
  have h1 := redeem_notFound db now code uid h
  refine ⟨h1, ?_, ?_⟩ <;> intro x <;> rw [h1]

/-- Witness for C9: an unknown code `"NOPE"` against a one-user store. -/
theorem C9_redeem_notFound_frame_witness :
    redeem_code_sync ⟨[(1, ⟨3, none⟩)], []⟩ "t1" "NOPE" 1
      = (⟨[(1, ⟨3, none⟩)], []⟩, .notFound) ∧
    (∀ uid' : Int,
       get_credits_sync (redeem_code_sync ⟨[(1, ⟨3, none⟩)], []⟩
         "t1" "NOPE" 1).1 uid'
       = get_credits_sync ⟨[(1, ⟨3, none⟩)], []⟩ uid') ∧
    ∀ code' : String,
      selectCode (redeem_code_sync ⟨[(1, ⟨3, none⟩)], []⟩ "t1" "NOPE" 1).1 code'
        = selectCode ⟨[(1, ⟨3, none⟩)], []⟩ code' :=
  C9_redeem_notFound_frame ⟨[(1, ⟨3, none⟩)], []⟩ "t1" "NOPE" 1 (by decide)

/-- C10: a successful redemption by a user with no account row inserts the
row with `credits = amount` and `last_topup_date` NULL; hence a daily grant
on the same calendar day still fires (NULL differs from today) and adds
`DAILY_FREE_CREDITS` on top of the redeemed amount. -/
theorem C10_redeem_fresh_user (db : DBState) (code : String) (c : CodeRow)
    (uid : Int) (now today : String)
    (hc : selectCode db code = some c) (hu : c.used_by = none)
    (hnew : selectUser db uid = none) :
    (redeem_code_sync db now code uid).2 = .success c.amount ∧
    selectUser (redeem_code_sync db now code uid).1 uid
      = some ⟨c.amount, none⟩ ∧
    (topup_if_needed_sync (redeem_code_sync db now code uid).1 today uid).2
      = c.amount + DAILY_FREE_CREDITS ∧
    get_credits_sync
        (topup_if_needed_sync (redeem_code_sync db now code uid).1
          today uid).1 uid
      = c.amount + DAILY_FREE_CREDITS := by
  obtain ⟨h1, h2, h3⟩ := redeem_success db now code uid c hc hu
  have hrow := selectUser_redeem_new db now code uid c hc hu hnew
  have h4 : (topup_if_needed_sync (redeem_code_sync db now code uid).1
      today uid).2 = c.amount + DAILY_FREE_CREDITS := by
    simp [topup_if_needed_sync, hrow]
  refine ⟨h1, hrow, h4, ?_⟩
  simp [get_credits_sync, h4]

/-- Witness for C10: code `"T"` of amount 100 redeemed by fresh user 42,
then the daily grant of 2026-10-12. -/
theorem C10_redeem_fresh_user_witness :
    (redeem_code_sync ⟨[], [("T", ⟨100, 7, "t0", none, none⟩)]⟩
        "t1" "T" 42).2 = .success 100 ∧
    selectUser (redeem_code_sync ⟨[], [("T", ⟨100, 7, "t0", none, none⟩)]⟩
        "t1" "T" 42).1 42 = some ⟨100, none⟩ ∧
    (topup_if_needed_sync (redeem_code_sync
        ⟨[], [("T", ⟨100, 7, "t0", none, none⟩)]⟩ "t1" "T" 42).1
        "2026-10-12" 42).2 = 100 + DAILY_FREE_CREDITS ∧
    get_credits_sync (topup_if_needed_sync (redeem_code_sync
        ⟨[], [("T", ⟨100, 7, "t0", none, none⟩)]⟩ "t1" "T" 42).1
        "2026-10-12" 42).1 42 = 100 + DAILY_FREE_CREDITS :=
  C10_redeem_fresh_user ⟨[], [("T", ⟨100, 7, "t0", none, none⟩)]⟩ "T"
    ⟨100, 7, "t0", none, none⟩ 42 "t1" "2026-10-12"
    (by decide) (by decide) (by decide)

/-- C7: in `num_cmd`, for a standard (non-admin) caller with a valid number:
if the balance after the daily-grant step is below `CREDIT_COST_PER_LOOKUP`
the handler stops with the insufficient-credits reply carrying that balance,
before the external API call and with no deduction (the store stays at its
post-grant state); otherwise the API call is made and credits are deducted
exactly when the lookup produced a non-empty filtered record list, a failed
or empty lookup leaving the post-grant balance untouched, while a successful
one costs exactly `CREDIT_COST_PER_LOOKUP`. -/
theorem C7_metered_gate (db : DBState) (today : String) (adminIds : List Int)
    (uid : Int) (digitsLen : Nat) (api : ApiOutcome)
    (hstd : adminIds.contains uid = false)
    (hlen : digitsLen = 10 ∨ digitsLen = 12) :
    (get_credits_sync
        (topup_if_needed_sync (ensure_user_sync db uid) today uid).1 uid
        < CREDIT_COST_PER_LOOKUP →
      num_cmd db today adminIds uid digitsLen api
        = ⟨(topup_if_needed_sync (ensure_user_sync db uid) today uid).1,
           false, false,
           .insufficient (get_credits_sync
             (topup_if_needed_sync (ensure_user_sync db uid) today uid).1
             uid)⟩) ∧
    (CREDIT_COST_PER_LOOKUP ≤ get_credits_sync
        (topup_if_needed_sync (ensure_user_sync db uid) today uid).1 uid →
      (num_cmd db today adminIds uid digitsLen api).externalCalled = true ∧
      ((num_cmd db today adminIds uid digitsLen api).deducted = true ↔
        ∃ recs, api = .ok recs ∧ (recs.filter recTruthy).isEmpty = false) ∧
      ((num_cmd db today adminIds uid digitsLen api).deducted = false →
        (num_cmd db today adminIds uid digitsLen api).db
          = (topup_if_needed_sync (ensure_user_sync db uid) today uid).1) ∧
      ((num_cmd db today adminIds uid digitsLen api).deducted = true →
        get_credits_sync (num_cmd db today adminIds uid digitsLen api).db uid
          = get_credits_sync
              (topup_if_needed_sync (ensure_user_sync db uid) today uid).1 uid
            - CREDIT_COST_PER_LOOKUP)) := by
  have hne : ¬(digitsLen ≠ 10 ∧ digitsLen ≠ 12) := by
    rcases hlen with h | h <;> simp [h]
  have hgc := get_credits_after_topup (ensure_user_sync db uid) today uid
  constructor
  · intro hlt
    unfold num_cmd
    rw [if_neg hne]
    simp only [hstd, Bool.not_false, Bool.true_and, hgc, decide_eq_true_eq]
    rw [if_pos hlt]
  · intro hge
    unfold num_cmd
    rw [if_neg hne]
    simp only [hstd, Bool.not_false, Bool.true_and, hgc, decide_eq_true_eq]
    rw [if_neg (not_lt.mpr hge)]
    refine ⟨?_, ?_, ?_, ?_⟩
    · cases api with
      | ok records =>
          by_cases hfe : (records.filter recTruthy).isEmpty <;> simp [hfe]
      | httpError s => rfl
      | noRecordsMsg => rfl
      | statusError m => rfl
      | unknownDict => rfl
      | unknownFormat => rfl
      | exn m => rfl
    · cases api with
      | ok records =>
          by_cases hfe : (records.filter recTruthy).isEmpty <;>
            simp [hfe] <;> simpa using hfe
      | httpError s => simp
      | noRecordsMsg => simp
      | statusError m => simp
      | unknownDict => simp
      | unknownFormat => simp
      | exn m => simp
    · cases api with
      | ok records =>
          by_cases hfe : (records.filter recTruthy).isEmpty <;> simp [hfe]
      | httpError s => simp
      | noRecordsMsg => simp
      | statusError m => simp
      | unknownDict => simp
      | unknownFormat => simp
      | exn m => simp
    · cases api with
      | ok records =>
          by_cases hfe : (records.filter recTruthy).isEmpty
          · simp [hfe]
          · simp only [hfe, Bool.false_eq_true, if_false]
            intro _
            rw [get_credits_sync_change_self]
            simp only [CREDIT_COST_PER_LOOKUP] at hge ⊢
            omega
      | httpError s => simp
      | noRecordsMsg => simp
      | statusError m => simp
      | unknownDict => simp
      | unknownFormat => simp
      | exn m => simp

/-- Witness for C7: a fresh standard user (admin list `[99]`, caller 1) with
a sufficient post-grant balance and a lookup returning one truthy record:
the deduction happens exactly because the filtered result is non-empty. -/
theorem C7_metered_gate_witness :
    (num_cmd ⟨[], []⟩ "2026-10-12" [99] 1 10
        (.ok [⟨none, none, some "A", none, none, none, none, none⟩])).deducted
      = true ↔
    ∃ recs,
      (ApiOutcome.ok [⟨none, none, some "A", none, none, none, none, none⟩])
        = .ok recs ∧ (recs.filter recTruthy).isEmpty = false :=
  ((C7_metered_gate ⟨[], []⟩ "2026-10-12" [99] 1 10
      (.ok [⟨none, none, some "A", none, none, none, none, none⟩])
      (by decide) (by decide)).2 (by decide)).2.1

/-- C8 counterexample: the gate does NOT leave a privileged caller's ledger
row untouched.  `num_cmd` calls `ensure_user` and `topup_if_needed` before
the admin check, so admin 8455153833 with a stale `last_topup_date` has
credits changed 0 → 30 and `last_topup_date` set to today by the gate,
contradicting the claim that privileged callers incur no daily-grant
bookkeeping. -/
theorem C8_privileged_counterexample :
    ¬ (get_credits_sync (num_cmd ⟨[(8455153833, ⟨0, none⟩)], []⟩ "2026-10-12"
          [8455153833] 8455153833 10 (.ok [])).db 8455153833
         = get_credits_sync ⟨[(8455153833, ⟨0, none⟩)], []⟩ 8455153833 ∧
       lastTopup (num_cmd ⟨[(8455153833, ⟨0, none⟩)], []⟩ "2026-10-12"
          [8455153833] 8455153833 10 (.ok [])).db 8455153833
         = lastTopup ⟨[(8455153833, ⟨0, none⟩)], []⟩ 8455153833) := by
  decide

/-- C8 amended: for every privileged caller, the metered-operation gate
performs no Ledger deduction — `change_credits` is never invoked for an
admin, whatever the lookup outcome — but the gate does run the shared
ensure-account and daily-grant steps, so the final store is exactly the
post-grant store (credits and `last_topup_date` may have been changed by
the daily grant itself). -/
theorem C8_amended_no_deduction (db : DBState) (today : String)
    (adminIds : List Int) (uid : Int) (digitsLen : Nat) (api : ApiOutcome)
    (hadm : adminIds.contains uid = true)
    (hlen : digitsLen = 10 ∨ digitsLen = 12) :
    (num_cmd db today adminIds uid digitsLen api).deducted = false ∧
    (num_cmd db today adminIds uid digitsLen api).db
      = (topup_if_needed_sync (ensure_user_sync db uid) today uid).1 := by
  have hne : ¬(digitsLen ≠ 10 ∧ digitsLen ≠ 12) := by
    rcases hlen with h | h <;> simp [h]
  unfold num_cmd
  rw [if_neg hne]
  simp only [hadm, Bool.not_true, Bool.false_and, Bool.false_eq_true,
    if_false]
  cases api with
  | ok records =>
      by_cases hfe : (records.filter recTruthy).isEmpty <;> simp [hfe]
  | httpError s => exact ⟨rfl, rfl⟩
  | noRecordsMsg => exact ⟨rfl, rfl⟩
  | statusError m => exact ⟨rfl, rfl⟩
  | unknownDict => exact ⟨rfl, rfl⟩
  | unknownFormat => exact ⟨rfl, rfl⟩
  | exn m => exact ⟨rfl, rfl⟩

/-- Witness for C8 amended: admin 7 on the empty store with an empty-result
lookup. -/
theorem C8_amended_no_deduction_witness :
    (num_cmd ⟨[], []⟩ "2026-10-12" [7] 7 12 .noRecordsMsg).deducted = false ∧
    (num_cmd ⟨[], []⟩ "2026-10-12" [7] 7 12 .noRecordsMsg).db
      = (topup_if_needed_sync (ensure_user_sync ⟨[], []⟩ 7)
          "2026-10-12" 7).1 :=
  C8_amended_no_deduction ⟨[], []⟩ "2026-10-12" [7] 7 12 .noRecordsMsg
    (by decide) (by decide)

end TgCredits
